import Mathlib

/-!
Shallow embedding of the agent tool-adapter layer: the DynamoDB adapter
(`create_item`, `read_item`, `update_item`, `query_items`), the Lambda adapter
(`invoke_lambda`, `get_lambda_code`, `list_lambdas`), the API Gateway adapter
(`execute_api`) and the runtime entrypoint (`run_agent`).

Python dictionaries are modelled as association lists `List (String × V)`
(insertion-ordered, with key uniqueness stated as a `Nodup` hypothesis where a
claim needs it).  External dependencies — the boto3 clients, the `requests`
HTTP client, the `json` codec and the LLM agent runtime — are modelled as
explicit parameters: each adapter builds the request record it issues, hands
it to the service parameter, and reshapes the response exactly as the source
does.  The DynamoDB item store is modelled concretely (a table is a key schema
plus a list of rows, PutItem replaces the row with the same key projection,
GetItem finds the row matching the key) so that the create/read round trip can
be settled.
-/

set_option autoImplicit false

/-- A Python `dict` with string keys: an insertion-ordered association list. -/
abbrev Dict (V : Type) : Type := List (String × V)

/-- `d.get(k)`: the value bound to the first occurrence of key `k`, if any. -/
def dictGet {V : Type} (l : Dict V) (k : String) : Option V :=
  match l with
  | [] => none
  | (k0, v0) :: rest => if k0 = k then some v0 else dictGet rest k

/-! ### DynamoDB service model

The DynamoDB service itself is external to the repository; it is modelled here
with its documented PutItem/GetItem semantics: a table has a key schema (the
list of key attribute names) and rows, PutItem fully replaces any row whose
key attributes coincide with the new item's, and GetItem returns the row whose
key attributes coincide with the supplied key. -/

/-- One DynamoDB table: its key schema and its current rows. -/
structure Table (V : Type) where
  keySchema : List String
  rows : List (Dict V)

/-- The projection of an item onto a list of attribute names. -/
def keyProj {V : Type} (ks : List String) (item : Dict V) : List (Option V) :=
  ks.map (dictGet item)

/-- PutItem: insert `item`, silently replacing any row with the same key
projection (the source uses no conditional-write guard). -/
def Table.put {V : Type} [DecidableEq V] (t : Table V) (item : Dict V) : Table V :=
  { t with rows :=
      item :: t.rows.filter (fun r => decide (keyProj t.keySchema r ≠ keyProj t.keySchema item)) }

/-- GetItem: the first row whose key attributes match `key`, if any. -/
def Table.get {V : Type} [DecidableEq V] (t : Table V) (key : Dict V) : Option (Dict V) :=
  t.rows.find? (fun r => decide (keyProj t.keySchema r = keyProj t.keySchema key))

/-- The storage service state: a table for every table name. -/
abbrev Store (V : Type) : Type := String → Table V

/-- The request issued by `table.put_item(Item=item)`. -/
structure PutItemRequest (V : Type) where
  tableName : String
  item : Dict V

/-- The request issued by `table.get_item(Key=key)`. -/
structure GetItemRequest (V : Type) where
  tableName : String
  key : Dict V

/-- The request issued by `table.update_item(Key=key, UpdateExpression=...,
ExpressionAttributeValues=...)`. -/
structure UpdateItemRequest (V : Type) where
  tableName : String
  key : Dict V
  updateExpression : String
  expressionAttributeValues : Dict V

/-- The request issued by `table.query(KeyConditionExpression=...,
ExpressionAttributeValues=...)`. -/
structure QueryRequest (V : Type) where
  tableName : String
  keyConditionExpression : String
  expressionAttributeValues : Dict V

/-- The service's handling of a PutItem request. -/
def Store.putItem {V : Type} [DecidableEq V] (s : Store V) (r : PutItemRequest V) : Store V :=
  fun n => if n = r.tableName then (s r.tableName).put r.item else s n

/-- The service's handling of a GetItem request: `some` row or absent. -/
def Store.getItem {V : Type} [DecidableEq V] (s : Store V) (r : GetItemRequest V) :
    Option (Dict V) :=
  (s r.tableName).get r.key

/-! ### dynamodb_tool.py -/

/-- The PutItem request `create_item` issues. -/
def create_item_request {V : Type} (table_name : String) (item : Dict V) : PutItemRequest V :=
  { tableName := table_name, item := item }

/-- `create_item(table_name, item)`: put the item, return a confirmation string. -/
def create_item {V : Type} [DecidableEq V] (s : Store V) (table_name : String) (item : Dict V) :
    Store V × String :=
  (s.putItem (create_item_request table_name item), "Item created in " ++ table_name)

/-- The GetItem request `read_item` issues. -/
def read_item_request {V : Type} (table_name : String) (key : Dict V) : GetItemRequest V :=
  { tableName := table_name, key := key }

/-- `read_item(table_name, key)`: `response.get('Item', {})` — the matching
row, or the empty mapping when the response carries no row. -/
def read_item {V : Type} [DecidableEq V] (s : Store V) (table_name : String) (key : Dict V) :
    Dict V :=
  (s.getItem (read_item_request table_name key)).getD []

/-- `"SET " + ", ".join([f"{k} = :{k}" for k in updates.keys()])`. -/
def update_expr {V : Type} (updates : Dict V) : String :=
  "SET " ++ String.intercalate ", " (updates.map (fun kv => kv.1 ++ " = :" ++ kv.1))

/-- `{f":{k}": v for k, v in updates.items()}`. -/
def expr_attr_values {V : Type} (updates : Dict V) : Dict V :=
  updates.map (fun kv => (":" ++ kv.1, kv.2))

/-- The UpdateItem request `update_item` issues. -/
def update_item_request {V : Type} (table_name : String) (key updates : Dict V) :
    UpdateItemRequest V :=
  { tableName := table_name, key := key, updateExpression := update_expr updates,
    expressionAttributeValues := expr_attr_values updates }

/-- `update_item(table_name, key, updates)`: build the update expression and
substituted values, issue the update call, return a confirmation string.  The
issued request is returned explicitly (no claim needs the service's execution
of the update expression, only the request it is handed). -/
def update_item {V : Type} (table_name : String) (key updates : Dict V) :
    UpdateItemRequest V × String :=
  (update_item_request table_name key updates, "Item updated in " ++ table_name)

/-- The Query request `query_items` issues. -/
def query_items_request {V : Type} (table_name key_condition : String)
    (eav : Dict V) : QueryRequest V :=
  { tableName := table_name, keyConditionExpression := key_condition,
    expressionAttributeValues := eav }

/-- `query_items(table_name, key_condition, expr_attr_values)`: pass the
condition straight to the query call; `response.get('Items', [])`.  The
service's expression evaluation is external, modelled as the oracle `svc`. -/
def query_items {V : Type} (svc : QueryRequest V → Option (List (Dict V)))
    (table_name key_condition : String) (eav : Dict V) : List (Dict V) :=
  (svc (query_items_request table_name key_condition eav)).getD []

/-! ### lambda_tool.py -/

/-- The request issued by `lambda_client.invoke(FunctionName=...,
InvocationType=..., Payload=json.dumps(payload))`. -/
structure InvokeRequest where
  functionName : String
  invocationType : String
  payload : String

/-- The Python default for `invocation_type`. -/
def defaultInvocationType : String := "RequestResponse"

/-- The Invoke request `invoke_lambda` issues. -/
def invoke_lambda_request {V : Type} (dumps : Dict V → String) (function_name : String)
    (payload : Dict V) (invocation_type : String) : InvokeRequest :=
  { functionName := function_name, invocationType := invocation_type,
    payload := dumps payload }

/-- `invoke_lambda(function_name, payload, invocation_type)`: serialize
`payload` with `json.dumps`, issue one invocation, decode the returned byte
payload with `json.loads` (a decode failure raises, hence `Except`). -/
def invoke_lambda {V J : Type} (dumps : Dict V → String) (loads : String → Except String J)
    (svc : InvokeRequest → String) (function_name : String) (payload : Dict V)
    (invocation_type : String) : Except String J :=
  loads (svc (invoke_lambda_request dumps function_name payload invocation_type))

/-- The request issued by `lambda_client.get_function(FunctionName=...)`. -/
structure GetFunctionRequest where
  functionName : String

/-- The `Code` field of a GetFunction response. -/
structure FunctionCode where
  location : String

/-- A GetFunction response (only the field the source reads). -/
structure GetFunctionResponse where
  code : FunctionCode

/-- The GetFunction request `get_lambda_code` issues. -/
def get_lambda_code_request (function_name : String) : GetFunctionRequest :=
  { functionName := function_name }

/-- `get_lambda_code(function_name)`: `response['Code']['Location']`. -/
def get_lambda_code (svc : GetFunctionRequest → GetFunctionResponse)
    (function_name : String) : String :=
  (svc (get_lambda_code_request function_name)).code.location

/-- One entry of a ListFunctions response: a full function descriptor, of
which the source keeps only `FunctionName`. -/
structure FunctionDescriptor where
  functionName : String
  runtime : String
  handler : String

/-- The compute service account as the Lambda adapter sees it: every deployed
function, and the page size the service applies to an unmarked ListFunctions
call. -/
structure LambdaAccount where
  allFunctions : List FunctionDescriptor
  pageSize : Nat

/-- `lambda_client.list_functions()` with no pagination marker: the service
returns only the first page of descriptors. -/
def LambdaAccount.listFunctionsFirstPage (a : LambdaAccount) : List FunctionDescriptor :=
  a.allFunctions.take a.pageSize

/-- `list_lambdas()`: one unmarked ListFunctions call, then
`[func['FunctionName'] for func in response['Functions']]`. -/
def list_lambdas (a : LambdaAccount) : List String :=
  a.listFunctionsFirstPage.map FunctionDescriptor.functionName

/-! ### apigateway_tool.py -/

/-- The request issued by `requests.request(method=..., url=..., headers=...,
params=..., json=body)`. -/
structure HttpRequest (V : Type) where
  method : String
  url : String
  headers : Option (Dict V)
  params : Option (Dict V)
  jsonBody : Option (Dict V)

/-- An HTTP response as the source reads it: status code and raw text. -/
structure HttpResponse where
  status_code : Nat
  text : String

/-- The value `execute_api` returns: a mapping with exactly the two fields
`status_code` and `body`. -/
structure ApiResult (J : Type) where
  status_code : Nat
  body : Option J

/-- The HTTP request `execute_api` issues. -/
def execute_api_request {V : Type} (api_url method : String)
    (headers params body : Option (Dict V)) : HttpRequest V :=
  { method := method, url := api_url, headers := headers, params := params,
    jsonBody := body }

/-- `execute_api(api_url, method, headers, params, body)`: one HTTP request;
returns `{"status_code": ..., "body": response.json() if response.text else
None}`.  `response.json()` is `loads` and may fail, and Python's truthiness
makes the guard `response.text ≠ ""`; a decode failure raises (`Except.error`).
The Python defaults are `method="GET"` and `None` for the three dicts. -/
def execute_api {V J : Type} (http : HttpRequest V → HttpResponse)
    (loads : String → Except String J) (api_url method : String)
    (headers params body : Option (Dict V)) : Except String (ApiResult J) :=
  let response := http (execute_api_request api_url method headers params body)
  if response.text = "" then
    Except.ok { status_code := response.status_code, body := none }
  else
    (loads response.text).map (fun j => { status_code := response.status_code, body := some j })

/-! ### agent_simple.py -/

/-- One element of the agent runtime's `response.message["content"]` list. -/
structure AgentContent where
  text : String

/-- The agent runtime's final message. -/
structure AgentMessage where
  content : List AgentContent

/-- The agent runtime's response object. -/
structure AgentResponse where
  message : AgentMessage

/-- The literal fallback used when the payload has no `"prompt"` field. -/
def defaultPrompt : String := "List all Lambda functions"

/-- `agent(user_input)` followed by `response.message["content"][0]["text"]` —
`Option` models the IndexError raised when the runtime hands back no content
block. -/
def agentFinalText (agent : String → AgentResponse) (user_input : String) : Option String :=
  ((agent user_input).message.content.head?).map AgentContent.text

/-- `run_agent(payload)`: `payload.get("prompt", "List all Lambda functions")`
is handed to the (external) agent runtime, and the final message's first
content block's text is returned. -/
def run_agent (agent : String → AgentResponse) (payload : Dict String) : Option String :=
  agentFinalText agent ((dictGet payload "prompt").getD defaultPrompt)

/-! ### Helper lemmas -/

/-- Prepending `":"` to a string is injective. -/
theorem colon_prepend_injective : Function.Injective (fun k : String => ":" ++ k) := by
  intro a b h
  have hd : (":" ++ a).data = (":" ++ b).data := congrArg String.data h
  cases a with
  | mk ad =>
    cases b with
    | mk bd =>
      simp [String.instAppend, String.append] at hd
      exact congrArg String.mk hd

/-- Looking up a renamed key in a key-renamed association list, when the
renaming is injective and the original keys are distinct. -/
theorem dictGet_map_rename {V : Type} (f : String → String)
    (hf : Function.Injective f) (l : Dict V) (hnd : (l.map Prod.fst).Nodup)
    (k : String) (v : V) (hmem : (k, v) ∈ l) :
    dictGet (l.map (fun kv => (f kv.1, kv.2))) (f k) = some v := by
  induction l with
  | nil => cases hmem
  | cons hd tl ih =>
    rw [List.map_cons, List.nodup_cons] at hnd
    rcases List.mem_cons.mp hmem with heq | htl
    · subst heq
      simp [dictGet]
    · have hk : k ∈ tl.map Prod.fst := List.mem_map_of_mem Prod.fst htl
      have hne : f hd.1 ≠ f k := fun h => hnd.1 (hf h ▸ hk)
      simp only [List.map_cons, dictGet, if_neg hne]
      exact ih hnd.2 htl

/-! ### Claims -/

/-- C1: for every non-empty `updates` mapping (Python dict keys are distinct),
`update_item` builds an `UpdateExpression` of the form
`"SET k1 = :k1, ..., kn = :kn"`: the joined clause list has exactly one
assignment clause per field named in `updates` and nothing else, the bound
placeholder of field `k` is `":" ++ k` and the placeholders are pairwise
distinct, and `ExpressionAttributeValues` binds `":" ++ k` to `updates[k]` for
every field `k`. -/
theorem update_item_expression_spec {V : Type} (table_name : String) (key updates : Dict V)
    (_hne : updates ≠ []) (hnd : (updates.map Prod.fst).Nodup) :
    ∃ clauses : List String,
      (update_item table_name key updates).1.updateExpression =
          "SET " ++ String.intercalate ", " clauses
      ∧ clauses.length = updates.length
      ∧ (∀ kv ∈ updates, (kv.1 ++ " = :" ++ kv.1) ∈ clauses)
      ∧ (∀ c ∈ clauses, ∃ kv ∈ updates, c = kv.1 ++ " = :" ++ kv.1)
      ∧ ((update_item table_name key updates).1.expressionAttributeValues.map Prod.fst).Nodup
      ∧ (∀ kv ∈ updates,
          dictGet (update_item table_name key updates).1.expressionAttributeValues
            (":" ++ kv.1) = some kv.2) := by
  refine ⟨updates.map (fun kv : String × V => kv.1 ++ " = :" ++ kv.1), rfl, by simp, ?_, ?_, ?_, ?_⟩
  · intro kv hkv
    exact List.mem_map_of_mem _ hkv
  · intro c hc
    rcases List.mem_map.mp hc with ⟨kv, hkv, hkveq⟩
    exact ⟨kv, hkv, hkveq.symm⟩
  · have heq : (update_item table_name key updates).1.expressionAttributeValues.map Prod.fst
        = (updates.map Prod.fst).map (fun k => ":" ++ k) := by
      simp [update_item, update_item_request, expr_attr_values]
    rw [heq]
    exact hnd.map colon_prepend_injective
  · intro kv hkv
    exact dictGet_map_rename (fun k => ":" ++ k) colon_prepend_injective updates hnd kv.1 kv.2 hkv

/-- Witness for C1 at `updates = {"a": 1, "b": 2}`: the `"b"` binding of the
substituted values. -/
theorem update_item_expression_spec_witness :
    dictGet (update_item "t" [("id", (0 : Nat))] [("a", 1), ("b", 2)]).1.expressionAttributeValues
      ":b" = some 2 := by
  obtain ⟨_, _, _, _, _, _, h⟩ :=
    update_item_expression_spec "t" [("id", (0 : Nat))] [("a", 1), ("b", 2)]
      (by decide) (by decide)
  exact h ("b", 2) (by decide)

/-- C9: for the empty `updates` mapping, `update_item` builds the
`UpdateExpression` `"SET "` (exactly four characters, no clause), an empty
`ExpressionAttributeValues` mapping, and still issues the update call with
that request (no local rejection of the empty input). -/
theorem update_item_empty_updates {V : Type} (table_name : String) (key : Dict V) :
    update_item table_name key ([] : Dict V) =
      ({ tableName := table_name, key := key, updateExpression := "SET ",
         expressionAttributeValues := [] }, "Item updated in " ++ table_name)
    ∧ (update_item table_name key ([] : Dict V)).1.updateExpression.data
        = ['S', 'E', 'T', ' '] := by
  constructor
  · simp [update_item, update_item_request, update_expr, expr_attr_values,
      String.intercalate]
  · rfl

/-- C2: when no row of the addressed table matches the key, `read_item`
returns the empty mapping (no error: the function is total); and when the
service does return a row that happens to be empty, `read_item` also returns
the empty mapping — the result does not distinguish the two cases. -/
theorem read_item_missing_row {V : Type} [DecidableEq V] (s : Store V) (table_name : String)
    (key : Dict V) :
    ((∀ r ∈ (s table_name).rows,
        keyProj (s table_name).keySchema r ≠ keyProj (s table_name).keySchema key) →
      read_item s table_name key = [])
    ∧ (Store.getItem s (read_item_request table_name key) = some [] →
        read_item s table_name key = []) := by
  constructor
  · intro h
    have hfind : (s table_name).rows.find?
        (fun r => decide (keyProj (s table_name).keySchema r
          = keyProj (s table_name).keySchema key)) = none := by
      rw [List.find?_eq_none]
      intro r hr
      simpa using h r hr
    simp [read_item, Store.getItem, read_item_request, Table.get, hfind]
  · intro h
    simp [read_item, h]

/-- Witness for C2: a table with no rows (no row matches), and a table whose
single row is the empty item and whose key schema is empty (the row matches
the empty key): `read_item` returns `{}` in both. -/
theorem read_item_missing_row_witness :
    read_item (fun _ => ({ keySchema := ["id"], rows := [] } : Table Nat)) "users"
        [("id", 7)] = []
    ∧ read_item (fun _ => ({ keySchema := [], rows := [[]] } : Table Nat)) "users" [] = [] :=
  ⟨(read_item_missing_row (fun _ => ({ keySchema := ["id"], rows := [] } : Table Nat))
      "users" [("id", 7)]).1 (by simp),
   (read_item_missing_row (fun _ => ({ keySchema := [], rows := [[]] } : Table Nat))
      "users" []).2 (by decide)⟩

/-- C4: writing `item` with `create_item` and immediately reading with a `key`
that identifies it (the key's projection onto the table's key schema agrees
with the item's) returns a row whose fields include every field of the written
item — in this store model the row is the item itself. -/
theorem create_then_read_roundtrip {V : Type} [DecidableEq V] (s : Store V)
    (table_name : String) (item key : Dict V)
    (hkey : keyProj (s table_name).keySchema key = keyProj (s table_name).keySchema item) :
    ∀ a v, dictGet item a = some v →
      dictGet (read_item (create_item s table_name item).1 table_name key) a = some v := by
  have hres : read_item (create_item s table_name item).1 table_name key = item := by
    simp [read_item, create_item, Store.putItem, Store.getItem, read_item_request,
      create_item_request, Table.put, Table.get, List.find?_cons, hkey]
  intro a v h
  rw [hres]
  exact h

/-- Witness for C4: write `{"id": 1, "x": 2}` into an empty table keyed on
`"id"`, read it back with key `{"id": 1}`, and recover the `"x"` field. -/
theorem create_then_read_roundtrip_witness :
    dictGet (read_item (create_item (fun _ => ({ keySchema := ["id"], rows := [] } : Table Nat))
        "t" [("id", 1), ("x", 2)]).1 "t" [("id", 1)]) "x" = some 2 :=
  create_then_read_roundtrip (fun _ => ({ keySchema := ["id"], rows := [] } : Table Nat))
    "t" [("id", 1), ("x", 2)] [("id", 1)] (by decide) "x" 2 (by decide)


/-- C3: `execute_api` returns a value with exactly the two fields
`status_code` and `body` (the `ApiResult` shape): when the response text is
empty the body is `none` (no decode is attempted, so an empty response body
yields `body = None` instead of a decode error), and when the text is
non-empty and decodes to `j` the body is `some j`; in both cases the status
code is the response's. -/
theorem execute_api_result_shape {V J : Type} (http : HttpRequest V → HttpResponse)
    (loads : String → Except String J) (api_url method : String)
    (headers params body : Option (Dict V)) :
    ((http (execute_api_request api_url method headers params body)).text = "" →
      execute_api http loads api_url method headers params body =
        Except.ok (ApiResult.mk
          (http (execute_api_request api_url method headers params body)).status_code none))
    ∧ (∀ j, (http (execute_api_request api_url method headers params body)).text ≠ "" →
        loads (http (execute_api_request api_url method headers params body)).text
          = Except.ok j →
        execute_api http loads api_url method headers params body =
          Except.ok (ApiResult.mk
            (http (execute_api_request api_url method headers params body)).status_code
            (some j))) := by
  constructor
  · intro h
    simp [execute_api, h]
  · intro j hne h
    simp [execute_api, hne, h, Except.map]

/-- Witness for C3: a client answering status 200 with empty text gives
`{status_code := 200, body := none}`; one answering status 201 with text `"5"`
under a decoder sending `"5"` to `5` gives `{status_code := 201, body := some 5}`. -/
theorem execute_api_result_shape_witness :
    execute_api (fun _ => ({ status_code := 200, text := "" } : HttpResponse))
        (fun _ => Except.error "never") "https://x" "GET"
        (none : Option (Dict Nat)) none none
      = Except.ok (ApiResult.mk 200 (none : Option Nat))
    ∧ execute_api (fun _ => ({ status_code := 201, text := "5" } : HttpResponse))
        (fun _ => Except.ok (5 : Nat)) "https://x" "GET"
        (none : Option (Dict Nat)) none none
      = Except.ok (ApiResult.mk 201 (some 5)) :=
  ⟨(execute_api_result_shape (fun _ => ({ status_code := 200, text := "" } : HttpResponse))
      (fun _ => Except.error "never") "https://x" "GET" none none none).1 rfl,
   (execute_api_result_shape (fun _ => ({ status_code := 201, text := "5" } : HttpResponse))
      (fun _ => Except.ok (5 : Nat)) "https://x" "GET" none none none).2 5 (by decide) rfl⟩

/-- C10: when the response text is non-empty and fails to decode, the decode
error propagates unchanged out of `execute_api` (the no-decode-error guarantee
of C3 covers only empty response bodies). -/
theorem execute_api_decode_error_propagates {V J : Type} (http : HttpRequest V → HttpResponse)
    (loads : String → Except String J) (api_url method : String)
    (headers params body : Option (Dict V)) (e : String)
    (hne : (http (execute_api_request api_url method headers params body)).text ≠ "")
    (herr : loads (http (execute_api_request api_url method headers params body)).text
      = Except.error e) :
    execute_api http loads api_url method headers params body = Except.error e := by
  simp [execute_api, hne, herr, Except.map]

/-- Witness for C10: a response whose text is not valid JSON makes the decoder
fail with `"invalid json"`, and `execute_api` surfaces exactly that error. -/
theorem execute_api_decode_error_propagates_witness :
    execute_api (fun _ => ({ status_code := 200, text := "not json" } : HttpResponse))
        (fun _ => (Except.error "invalid json" : Except String Nat)) "https://x" "GET"
        (none : Option (Dict Nat)) none none
      = Except.error "invalid json" :=
  execute_api_decode_error_propagates
    (fun _ => ({ status_code := 200, text := "not json" } : HttpResponse))
    (fun _ => (Except.error "invalid json" : Except String Nat)) "https://x" "GET"
    none none none "invalid json" (by decide) rfl

/-- C5: `list_lambdas` reads exactly the one page an unmarked ListFunctions
call returns and keeps only the `functionName` string of each descriptor (its
result type is `List String`, never descriptors): every returned name comes
from a first-page descriptor, and when the account holds more functions than
one page fits the result stops at the page size. -/
theorem list_lambdas_first_page_names (a : LambdaAccount) :
    list_lambdas a = a.listFunctionsFirstPage.map FunctionDescriptor.functionName
    ∧ (list_lambdas a).length = min a.pageSize a.allFunctions.length
    ∧ (∀ n ∈ list_lambdas a, ∃ f ∈ a.allFunctions.take a.pageSize, n = f.functionName)
    ∧ (a.pageSize < a.allFunctions.length →
        (list_lambdas a).length = a.pageSize ∧ (list_lambdas a).length < a.allFunctions.length) := by
  refine ⟨rfl, ?_, ?_, ?_⟩
  · simp [list_lambdas, LambdaAccount.listFunctionsFirstPage]
  · intro n hn
    rcases List.mem_map.mp hn with ⟨f, hf, hfe⟩
    exact ⟨f, hf, hfe.symm⟩
  · intro h
    constructor
    · simp [list_lambdas, LambdaAccount.listFunctionsFirstPage]
      omega
    · simp [list_lambdas, LambdaAccount.listFunctionsFirstPage]
      omega

/-- Witness for C5: an account with three functions and page size two yields
exactly the first two names. -/
theorem list_lambdas_first_page_names_witness :
    (list_lambdas
        (LambdaAccount.mk [⟨"f1", "py", "h"⟩, ⟨"f2", "py", "h"⟩, ⟨"f3", "py", "h"⟩] 2)).length
      = 2 :=
  ((list_lambdas_first_page_names
      (LambdaAccount.mk [⟨"f1", "py", "h"⟩, ⟨"f2", "py", "h"⟩, ⟨"f3", "py", "h"⟩] 2)).2.2.2
    (by decide)).1

/-- C6: `invoke_lambda` issues its one invocation request with the caller's
`function_name` and `invocation_type` unchanged and the payload serialized by
`json.dumps`, and returns exactly the JSON decoding of the byte payload the
service answers with. -/
theorem invoke_lambda_request_decode {V J : Type} (dumps : Dict V → String)
    (loads : String → Except String J) (svc : InvokeRequest → String)
    (function_name : String) (payload : Dict V) (invocation_type : String) :
    (invoke_lambda_request dumps function_name payload invocation_type).functionName
        = function_name
    ∧ (invoke_lambda_request dumps function_name payload invocation_type).invocationType
        = invocation_type
    ∧ (invoke_lambda_request dumps function_name payload invocation_type).payload
        = dumps payload
    ∧ (∀ j, loads (svc (invoke_lambda_request dumps function_name payload invocation_type))
          = Except.ok j →
        invoke_lambda dumps loads svc function_name payload invocation_type = Except.ok j) := by
  refine ⟨rfl, rfl, rfl, ?_⟩
  intro j h
  simpa [invoke_lambda] using h

/-- Witness for C6: a service echoing the serialized payload back, under the
identity decoder, makes `invoke_lambda` return the serialization itself. -/
theorem invoke_lambda_request_decode_witness :
    invoke_lambda (fun _ => "{}") (fun s => Except.ok s) (fun r => r.payload) "fn"
        ([] : Dict Nat) "Event"
      = Except.ok "{}" :=
  (invoke_lambda_request_decode (fun _ => "{}") (fun s => Except.ok s) (fun r => r.payload)
    "fn" ([] : Dict Nat) "Event").2.2.2 "{}" rfl

/-- C7: `run_agent` hands the payload's `"prompt"` value to the agent runtime
unchanged, or the literal `"List all Lambda functions"` when the payload has
no `"prompt"` field; what it returns is the text of the final message's first
content block, a plain string. -/
theorem run_agent_prompt_fallback (agent : String → AgentResponse) (payload : Dict String) :
    (dictGet payload "prompt" = none →
        run_agent agent payload = agentFinalText agent defaultPrompt)
    ∧ (∀ p, dictGet payload "prompt" = some p →
        run_agent agent payload = agentFinalText agent p)
    ∧ (∀ u c rest, (agent u).message.content = c :: rest →
        agentFinalText agent u = some c.text) := by
  refine ⟨?_, ?_, ?_⟩
  · intro h
    simp [run_agent, h]
  · intro p h
    simp [run_agent, h]
  · intro u c rest h
    simp [agentFinalText, h]

/-- Witness for C7: on a payload without `"prompt"` the runtime is called on
the fallback, whose final text `"done"` is returned. -/
theorem run_agent_prompt_fallback_witness :
    run_agent (fun _ => AgentResponse.mk (AgentMessage.mk [AgentContent.mk "done"])) []
        = agentFinalText (fun _ => AgentResponse.mk (AgentMessage.mk [AgentContent.mk "done"]))
          defaultPrompt
    ∧ agentFinalText (fun _ => AgentResponse.mk (AgentMessage.mk [AgentContent.mk "done"]))
        defaultPrompt = some "done" :=
  ⟨(run_agent_prompt_fallback (fun _ => AgentResponse.mk (AgentMessage.mk
      [AgentContent.mk "done"])) []).1 rfl,
   (run_agent_prompt_fallback (fun _ => AgentResponse.mk (AgentMessage.mk
      [AgentContent.mk "done"])) []).2.2 defaultPrompt (AgentContent.mk "done") [] rfl⟩

/-- C8: every adapter hands the caller-supplied table or function name, key,
item and condition through unmodified into the service request it issues:
each request-record field equals the corresponding caller argument. -/
theorem adapter_passthrough {V : Type} (dumps : Dict V → String)
    (table_name key_condition function_name invocation_type : String)
    (item key eav payload : Dict V) :
    (create_item_request table_name item).tableName = table_name
    ∧ (create_item_request table_name item).item = item
    ∧ (read_item_request table_name key).tableName = table_name
    ∧ (read_item_request table_name key).key = key
    ∧ (update_item_request table_name key eav).tableName = table_name
    ∧ (update_item_request table_name key eav).key = key
    ∧ (query_items_request table_name key_condition eav).tableName = table_name
    ∧ (query_items_request table_name key_condition eav).keyConditionExpression = key_condition
    ∧ (query_items_request table_name key_condition eav).expressionAttributeValues = eav
    ∧ (invoke_lambda_request dumps function_name payload invocation_type).functionName
        = function_name
    ∧ (get_lambda_code_request function_name).functionName = function_name :=
  ⟨rfl, rfl, rfl, rfl, rfl, rfl, rfl, rfl, rfl, rfl, rfl⟩
